import Mathlib

/-!
Shallow embedding of the 21-notifier-bot core (config manager, delta
tracker, session authenticator, notification fetcher, display utilities)
together with theorems settling the specification claims.

Python dictionaries holding the bot configuration are embedded as
association lists over a small value type; Python truthiness is made
explicit; network interaction is embedded by passing the responses the
network would return as explicit oracle arguments and recording the
requests actually issued as an event trace.
-/

namespace NotifierBot

/-- Values stored in the configuration dictionary of the bot: strings,
booleans, and None (for the initial last_update). -/
inductive Val where
  | str (s : String)
  | bool (b : Bool)
  | none
deriving DecidableEq, Repr

/-- Python truthiness of a configuration value: empty string, False and
None are falsy. -/
def Val.truthy : Val → Bool
  | .str s => !(s == "")
  | .bool b => b
  | .none => false

/-- A Python dict embedded as an association list (insertion order kept,
keys unique in all reachable states). -/
def Dict : Type := List (String × Val)

instance : DecidableEq Dict := by
  unfold Dict
  infer_instance

/-- Dictionary lookup, the counterpart of d[key]; returns Val.none when
the key is absent (all reachable configurations carry their keys). -/
def Dict.get : Dict → String → Val
  | [], _ => Val.none
  | (k, v) :: rest, key => if k = key then v else Dict.get rest key

/-- Whether a key is present, the counterpart of `key in d`. -/
def Dict.hasKey : Dict → String → Bool
  | [], _ => false
  | (k, _) :: rest, key => decide (k = key) || Dict.hasKey rest key

/-- Dictionary assignment d[key] = v: replaces the binding of the key,
or appends a fresh binding at the end as Python does. -/
def Dict.set : Dict → String → Val → Dict
  | [], key, v => [(key, v)]
  | (k, w) :: rest, key, v =>
      if k = key then (k, v) :: rest else (k, w) :: Dict.set rest key v

/-- Dict restriction dropping one key, the counterpart of the
comprehension in save_config that leaves platform_password out. -/
def Dict.eraseKey : Dict → String → Dict
  | [], _ => []
  | (k, w) :: rest, key =>
      if k = key then Dict.eraseKey rest key
      else (k, w) :: Dict.eraseKey rest key

namespace ConfigManager

/-- ConfigManager.get_default_config from src/bot/config_manager.py. -/
def get_default_config : Dict :=
  [("platform_login", .str ""),
   ("school_id", .str ""),
   ("campus_name", .str ""),
   ("admin_chat_id", .str ""),
   ("is_configured", .bool false),
   ("last_update", .none),
   ("timezone", .str "UTC+3")]

/-- ConfigManager.save_config from src/bot/config_manager.py: stamps
last_update with the current time, then writes every entry except
platform_password to the JSON file.  Returns the updated in-memory
configuration together with the persisted representation. -/
def save_config (cfg : Dict) (now : String) : Dict × Dict :=
  let cfg2 := Dict.set cfg "last_update" (.str now)
  (cfg2, cfg2.eraseKey "platform_password")

end ConfigManager

/-- Splitting a character list at every occurrence of a separator, the
counterpart of str.split(sep); the empty list yields one empty
segment. -/
def splitChar (sep : Char) : List Char → List (List Char)
  | [] => [[]]
  | c :: rest =>
    if c = sep then [] :: splitChar sep rest
    else
      match splitChar sep rest with
      | [] => [[c]]
      | seg :: more => (c :: seg) :: more

/-- Well-formedness check that CPython zoneinfo runs on a key before the
database lookup: the key must be a non-empty normalized relative POSIX
path, so an empty key, an absolute path, a doubled or trailing slash, or
a dot or dot-dot segment make ZoneInfo raise ValueError instead of
ZoneInfoNotFoundError. -/
def zoneKeyMalformed (key : String) : Bool :=
  (splitChar '/' key.data).any
    (fun p => p = [] || p = ['.'] || p = ['.', '.'])

/-- Outcome of the ZoneInfo constructor. -/
inductive ZoneOutcome where
  | ok
  | notFound
  | valueError
deriving DecidableEq, Repr

/-- ZoneInfo(key) against the zone database tzdb: ValueError for a
malformed key, ZoneInfoNotFoundError for a well-formed key outside the
database, success otherwise. -/
def zoneinfo_ctor (tzdb : List String) (key : String) : ZoneOutcome :=
  if zoneKeyMalformed key then ZoneOutcome.valueError
  else if tzdb.contains key then ZoneOutcome.ok
  else ZoneOutcome.notFound

namespace ConfigManager

/-- The write path of update_setting: stores the key, recomputes
is_configured as the truthiness conjunction of platform_login, school_id
and admin_chat_id, and runs save_config.  Returns the final
configuration and the persisted representation. -/
def update_setting_write (cfg : Dict) (key value : String)
    (now : String) : Dict × Dict :=
  let cfg1 := Dict.set cfg key (.str value)
  let cfg2 := Dict.set cfg1 "is_configured"
    (.bool ((cfg1.get "platform_login").truthy
      && (cfg1.get "school_id").truthy
      && (cfg1.get "admin_chat_id").truthy))
  save_config cfg2 now

/-- ConfigManager.update_setting from src/bot/config_manager.py.  For
key "timezone" the value is first handed to ZoneInfo: only
ZoneInfoNotFoundError is caught, giving the early return (nothing
mutated, nothing written); a ValueError for a malformed key is not
caught and propagates to the caller, embedded as the error case.  On
the write path the key is stored, is_configured is recomputed and
save_config runs; the returned pair is the final configuration and the
representation written by the save (Option.none when the early return
skipped the save). -/
def update_setting (tzdb : List String) (cfg : Dict) (key value : String)
    (now : String) : Except Unit (Dict × Option Dict) :=
  if key = "timezone" then
    match zoneinfo_ctor tzdb value with
    | ZoneOutcome.valueError => Except.error ()
    | ZoneOutcome.notFound => Except.ok (cfg, Option.none)
    | ZoneOutcome.ok =>
      let r := update_setting_write cfg key value now
      Except.ok (r.1, Option.some r.2)
  else
    let r := update_setting_write cfg key value now
    Except.ok (r.1, Option.some r.2)

end ConfigManager

/-- TelegramSchoolNotifier.reset_settings from src/bot/telegram_bot.py:
only the stored admin chat may reset; the configuration is then replaced
wholesale, keeping admin_chat_id and hard-coding is_configured False,
and saved. -/
def reset_settings (cfg : Dict) (chat_id : String) (now : String) :
    Dict × Option Dict :=
  if Val.str chat_id ≠ cfg.get "admin_chat_id" then (cfg, Option.none)
  else
    let cfg2 : Dict :=
      [("platform_login", .str ""),
       ("platform_password", .str ""),
       ("school_id", .str ""),
       ("campus_name", .str ""),
       ("admin_chat_id", cfg.get "admin_chat_id"),
       ("is_configured", .bool false),
       ("last_update", .str now),
       ("timezone", .str "Europe/Moscow")]
    let (cfg3, saved) := ConfigManager.save_config cfg2 now
    (cfg3, Option.some saved)

namespace Monolith

/-- ConfigManager.get_default_config of the legacy monolith
src/21_notifier_bot.py: the password is an ordinary configuration key
here and there is no timezone entry. -/
def get_default_config : Dict :=
  [("platform_login", .str ""),
   ("platform_password", .str ""),
   ("school_id", .str ""),
   ("campus_name", .str ""),
   ("admin_chat_id", .str ""),
   ("is_configured", .bool false),
   ("last_update", .none)]

/-- ConfigManager.save_config of the legacy monolith
src/21_notifier_bot.py (lines 84-92): stamps last_update and pickles the
whole configuration dictionary, the password included. -/
def save_config (cfg : Dict) (now : String) : Dict × Dict :=
  let cfg2 := Dict.set cfg "last_update" (.str now)
  (cfg2, cfg2)

/-- ConfigManager.update_setting of the legacy monolith: no timezone
guard, and is_configured is the four-way conjunction that includes the
password. -/
def update_setting (cfg : Dict) (key value : String) (now : String) :
    Dict × Dict :=
  let cfg1 := Dict.set cfg key (.str value)
  let cfg2 := Dict.set cfg1 "is_configured"
    (.bool ((cfg1.get "platform_login").truthy
      && (cfg1.get "platform_password").truthy
      && (cfg1.get "school_id").truthy
      && (cfg1.get "admin_chat_id").truthy))
  save_config cfg2 now

end Monolith

/-- The configured flag of a configuration equals the truthiness
conjunction of platform_login, school_id and admin_chat_id. -/
def flagMatchesConj (cfg : Dict) : Prop :=
  cfg.get "is_configured"
    = Val.bool ((cfg.get "platform_login").truthy
        && (cfg.get "school_id").truthy
        && (cfg.get "admin_chat_id").truthy)

instance (cfg : Dict) : Decidable (flagMatchesConj cfg) := by
  unfold flagMatchesConj
  infer_instance

/-- A notification as the delta tracker sees it: the server-assigned id
plus the display fields carried along (the tracker reads only the id). -/
structure Notif where
  id : String
  time : String
  message : String
  groupName : String
deriving DecidableEq, Repr

/-- The id set of a fetched list, the counterpart of the set
comprehension over n["id"] in get_new_notifications. -/
def notifIds (current : List Notif) : Finset String :=
  (current.map Notif.id).toFinset

/-- SchoolPlatformManager.get_new_notifications from
src/bot/platform_manager.py (lines 647-666).  The result of
self.get_notifications() is passed in as fetched (Option.none embeds the
None returned on a failed fetch); seen embeds
self.last_notification_ids.  Returns the reported new notifications and
the seen set after the call.  The falsy-guard on the fetched list covers
both None and the empty list, and the falsy-guard on the seen set is the
cold-start test. -/
def get_new_notifications (fetched : Option (List Notif))
    (seen : Finset String) : List Notif × Finset String :=
  match fetched with
  | Option.none => ([], seen)
  | Option.some current =>
    if current = [] then ([], seen)
    else
      let current_ids := notifIds current
      if seen = ∅ then ([], current_ids)
      else
        let new_ids := current_ids \ seen
        (current.filter (fun n => n.id ∈ new_ids), current_ids)

/-- Session state owned by SchoolPlatformManager: the bearer token and
its heuristic expiry (seconds on an abstract clock), both absent until
the first successful authentication. -/
structure SessionState where
  token : Option String
  token_expiry : Option Nat
deriving DecidableEq, Repr

/-- Python truthiness of an optional string: None and the empty string
are falsy. -/
def truthyOptStr : Option String → Bool
  | Option.none => false
  | Option.some s => !(s == "")

/-- SchoolPlatformManager.login_and_get_token from
src/bot/platform_manager.py (lines 200-232).  The login and password are
the effective values after the defaulting from the configuration; the
token each network tier would yield is passed in as an oracle
(api_result for login_via_api, selenium_result for login_via_selenium,
both Option.none on that tier failing; login_via_api never returns an
empty token because of its own truthiness check on access_token).  On
API success the state gets the token with expiry now plus 10 hours, on
browser success now plus 23 hours; on empty credentials or when both
tiers fail, the previous state is returned untouched. -/
def login_and_get_token (st : SessionState) (login password : String)
    (api_result selenium_result : Option String) (now : Nat) :
    Option String × SessionState :=
  if login = "" || password = "" then (Option.none, st)
  else if truthyOptStr api_result then
    (api_result, ⟨api_result, Option.some (now + 10 * 3600)⟩)
  else if truthyOptStr selenium_result then
    (selenium_result, ⟨selenium_result, Option.some (now + 23 * 3600)⟩)
  else (Option.none, st)

/-- JSON values, as response.json() decodes a response body. -/
inductive Json where
  | null
  | bool (b : Bool)
  | num (n : Int)
  | str (s : String)
  | arr (elems : List Json)
  | obj (fields : List (String × Json))

/-- Python truthiness of a decoded JSON value. -/
def Json.truthy : Json → Bool
  | .null => false
  | .bool b => b
  | .num n => !(n == 0)
  | .str s => !(s == "")
  | .arr xs => !xs.isEmpty
  | .obj fs => !fs.isEmpty

/-- Key membership in a decoded JSON object. -/
def jsonHasKey (fields : List (String × Json)) (key : String) : Bool :=
  fields.any (fun kv => kv.1 == key)

/-- Python dict.get(key, default) on a decoded JSON object. -/
def jsonGetD (fields : List (String × Json)) (key : String)
    (d : Json) : Json :=
  match fields with
  | [] => d
  | (k, v) :: rest => if k = key then v else jsonGetD rest key d

/-- The Python expression `key in j`: key membership for a dict, element
equality for a list, substring test for a string; on the remaining
shapes the interpreter raises TypeError, embedded as an error value. -/
def pyIn (key : String) (j : Json) : Except String Bool :=
  match j with
  | .obj fields => .ok (jsonHasKey fields key)
  | .arr xs => .ok (xs.any (fun x =>
      match x with
      | .str s => s == key
      | _ => false))
  | .str s => .ok ((s.data.tails).any (fun t => key.data.isPrefixOf t))
  | _ => .error "TypeError"

/-- The Python call j.get(key, default): works on a dict, raises
AttributeError on every other shape (null included), embedded as an
error value; that error is not caught by the fetchers. -/
def pyGetD (j : Json) (key : String) (d : Json) : Except String Json :=
  match j with
  | .obj fields => .ok (jsonGetD fields key d)
  | _ => .error "AttributeError"

/-- The response-body handling shared by get_notifications and
get_last_notification in src/bot/platform_manager.py: a body containing
a GraphQL errors entry is a failure (None) even with HTTP status 200;
otherwise the notifications value is extracted along
data / s21Notification / getS21Notifications / notifications, each
lookup defaulting to an empty dict (finally an empty list) when the key
is missing. -/
def parse_notifications (data : Json) : Except String (Option Json) := do
  let hasErrors ← pyIn "errors" data
  if hasErrors then
    return Option.none
  let d1 ← pyGetD data "data" (Json.obj [])
  let d2 ← pyGetD d1 "s21Notification" (Json.obj [])
  let d3 ← pyGetD d2 "getS21Notifications" (Json.obj [])
  let ns ← pyGetD d3 "notifications" (Json.arr [])
  return (Option.some ns)

/-- Network requests a fetch operation issues, recorded as a trace:
the token-validation probe GET, a call into login_and_get_token, and
the GraphQL POST carrying the given bearer token. -/
inductive NetEvent where
  | probe (token : String)
  | reauth
  | fetchPost (token : String)
deriving DecidableEq, Repr

/-- What the outside world would answer during one fetch operation:
the HTTP status of the validation probe, the credentials and tier
oracles a re-authentication would use, the configured school id, and
the status, decodability and decoded body of the GraphQL response. -/
structure FetchEnv where
  probe_status : Nat
  login : String
  password : String
  api_result : Option String
  selenium_result : Option String
  now : Nat
  school_id : String
  status : Nat
  decode_ok : Bool
  data : Json

/-- SchoolPlatformManager.validate_token from src/bot/platform_manager.py
(lines 276-294): falsy tokens fail without touching the network;
otherwise the campus-list probe is issued and only status 200 counts as
valid (transport errors are embedded as a non-200 probe status). -/
def validate_token (token : Option String) (probe_status : Nat) :
    Bool × List NetEvent :=
  match token with
  | Option.none => (false, [])
  | Option.some t =>
    if t = "" then (false, [])
    else (probe_status == 200, [NetEvent.probe t])

/-- HTTP-level handling of the notification POST shared by both fetchers:
raise_for_status turns a 4xx/5xx status into a caught RequestException
(None), an undecodable body is a caught JSONDecodeError (None), and the
decoded body goes through parse_notifications. -/
def http_fetch_body (env : FetchEnv) : Except String (Option Json) :=
  if env.status ≥ 400 then .ok Option.none
  else if !env.decode_ok then .ok Option.none
  else parse_notifications env.data

/-- SchoolPlatformManager.get_notifications from
src/bot/platform_manager.py (lines 573-645): fails on a falsy token or
school id without network activity, and otherwise issues the 50-item
GraphQL POST directly with the cached token; no validation probe and no
re-authentication happen on this path. -/
def get_notifications (st : SessionState) (env : FetchEnv) :
    Except String (Option Json) × List NetEvent :=
  match st.token with
  | Option.none => (.ok Option.none, [])
  | Option.some tok =>
    if tok = "" then (.ok Option.none, [])
    else if env.school_id = "" then (.ok Option.none, [])
    else (http_fetch_body env, [NetEvent.fetchPost tok])

/-- First-element selection of get_last_notification: a non-empty
notifications list yields its head, an empty one yields None.  A truthy
non-list value would be subscripted by Python with shape-specific
behaviour; it never arises from the platform and is embedded as an
error. -/
def first_notification (ns : Json) : Except String (Option Json) :=
  match ns with
  | .arr (x :: _) => .ok (Option.some x)
  | .arr [] => .ok Option.none
  | j => if j.truthy then .error "SubscriptUnmodelled" else .ok Option.none

/-- SchoolPlatformManager.get_last_notification from
src/bot/platform_manager.py (lines 668-766): fails on a falsy token;
probes the cached token and, when the probe fails, performs exactly one
login_and_get_token call, failing outright when it yields no truthy
token; then fails on an empty school id, and otherwise issues the 1-item
GraphQL POST with the current (possibly refreshed) token and returns the
first notification of the decoded body. -/
def get_last_notification (st : SessionState) (env : FetchEnv) :
    Except String (Option Json) × SessionState × List NetEvent :=
  match st.token with
  | Option.none => (.ok Option.none, st, [])
  | Option.some tok =>
    if tok = "" then (.ok Option.none, st, [])
    else
      let probed := validate_token (Option.some tok) env.probe_status
      if probed.1 then
        if env.school_id = "" then (.ok Option.none, st, probed.2)
        else
          (match http_fetch_body env with
           | .error e => .error e
           | .ok Option.none => .ok Option.none
           | .ok (Option.some ns) => first_notification ns,
           st, probed.2 ++ [NetEvent.fetchPost tok])
      else
        let reauthed := login_and_get_token st env.login env.password
          env.api_result env.selenium_result env.now
        match reauthed.1 with
        | Option.none =>
            (.ok Option.none, reauthed.2, probed.2 ++ [NetEvent.reauth])
        | Option.some nt =>
          if nt = "" then
            (.ok Option.none, reauthed.2, probed.2 ++ [NetEvent.reauth])
          else if env.school_id = "" then
            (.ok Option.none, reauthed.2, probed.2 ++ [NetEvent.reauth])
          else
            (match http_fetch_body env with
             | .error e => .error e
             | .ok Option.none => .ok Option.none
             | .ok (Option.some ns) => first_notification ns,
             reauthed.2,
             probed.2 ++ [NetEvent.reauth, NetEvent.fetchPost nt])

/-- The Markdown special characters of escape_markdown in
src/bot/utils.py; the backtick and the braces are written with character
escapes. -/
def escape_chars : List Char :=
  ['_', '*', '[', ']', '(', ')', '~', '\x60', '>', '#', '+', '-', '=',
   '|', '\x7b', '\x7d', '.', '!']

/-- Membership of a character in the special set, the counterpart of
`char in escape_chars`. -/
def isSpecial (c : Char) : Bool := escape_chars.contains c

/-- The character loop of escape_markdown: one backslash is prepended to
every special character, all other characters pass through. -/
def escapeList : List Char → List Char
  | [] => []
  | c :: rest => (if isSpecial c then ['\\', c] else [c]) ++ escapeList rest

/-- escape_markdown from src/bot/utils.py (lines 18-32); the falsy-input
guard returns the empty string for empty input, which the loop also
does. -/
def escape_markdown (s : String) : String :=
  ⟨escapeList s.data⟩

/-- Scanner used to state claim C9 positionally: every special character
must be immediately preceded by a backslash that is not itself preceded
by a backslash; p2 and p1 carry the previous two characters. -/
def onceAux (p2 p1 : Option Char) : List Char → Bool
  | [] => true
  | c :: rest =>
    ((!isSpecial c) || (decide (p1 = Option.some '\\')
        && !decide (p2 = Option.some '\\')))
      && onceAux p1 (Option.some c) rest

/-- Every special character occurrence in the list is preceded by
exactly one backslash. -/
def allSpecialsEscapedOnce (l : List Char) : Bool :=
  onceAux Option.none Option.none l

/-- Splitting at the first occurrence of a separator, the counterpart of
str.split(sep, 1); the second component is present only when the
separator occurred. -/
def splitOnce (sep : Char) : List Char → List Char × Option (List Char)
  | [] => ([], Option.none)
  | c :: rest =>
    if c = sep then ([], Option.some rest)
    else
      let r := splitOnce sep rest
      (c :: r.1, r.2)

/-- str.strip() on the characters of the string. -/
def pyStrip (l : List Char) : List Char :=
  ((l.dropWhile Char.isWhitespace).reverse.dropWhile
    Char.isWhitespace).reverse

/-- The fractional-seconds adjustment of _normalize_time_string:
truncation to six digits or zero-padding up to six digits. -/
def padFraction (frac : List Char) : List Char :=
  if frac.length > 6 then frac.take 6
  else frac ++ List.replicate (6 - frac.length) '0'

/-- _normalize_time_string from src/bot/utils.py (lines 70-101): strips
the input, rewrites a trailing Z to +00:00, and when the string contains
both a dot and a plus, brings the fractional seconds to six digits.  The
two-variable unpacking of split("T", 1) raises ValueError when the main
part contains no T; that exception is embedded as the error case and is
caught by convert_utc_to_local. -/
def _normalize_time_string (l0 : List Char) : Except Unit (List Char) :=
  let l1 := pyStrip l0
  let l2 := if l1.getLast? = Option.some 'Z' then
      l1.dropLast ++ ['+', '0', '0', ':', '0', '0']
    else l1
  if l2.contains '.' && l2.contains '+' then
    match (splitOnce '+' l2).2 with
    | Option.none => Except.ok l2
    | Option.some tzRest =>
      let main_part := (splitOnce '+' l2).1
      let tz_part := '+' :: tzRest
      if main_part.contains '.' then
        match (splitOnce 'T' main_part).2 with
        | Option.none => Except.error ()
        | Option.some time_part =>
          let date_part := (splitOnce 'T' main_part).1
          if time_part.contains '.' then
            let frac := (splitOnce '.' time_part).2.getD []
            Except.ok (date_part ++ 'T' :: ((splitOnce '.' time_part).1
              ++ '.' :: padFraction frac) ++ tz_part)
          else Except.ok (date_part ++ 'T' :: time_part ++ tz_part)
      else Except.ok (main_part ++ tz_part)
  else Except.ok l2

/-- A parsed datetime as datetime.fromisoformat returns it; the offset
is in minutes and absent for a naive value. -/
structure PyDateTime where
  year : Nat
  month : Nat
  day : Nat
  hour : Nat
  minute : Nat
  second : Nat
  microsecond : Nat
  offsetMinutes : Option Int
deriving DecidableEq, Repr

/-- Decimal digit value of a character. -/
def digi (c : Char) : Option Nat :=
  if c.isDigit then Option.some (c.toNat - 48) else Option.none

/-- Two mandatory digits. -/
def parse2 : List Char → Option (Nat × List Char)
  | a :: b :: rest =>
    (match digi a, digi b with
     | Option.some x, Option.some y => Option.some (x * 10 + y, rest)
     | _, _ => Option.none)
  | _ => Option.none

/-- Four mandatory digits. -/
def parse4 (l : List Char) : Option (Nat × List Char) :=
  match parse2 l with
  | Option.some (hi, r) =>
    (match parse2 r with
     | Option.some (lo, r2) => Option.some (hi * 100 + lo, r2)
     | Option.none => Option.none)
  | Option.none => Option.none

/-- One mandatory literal character. -/
def expectChar (c : Char) : List Char → Option (List Char)
  | [] => Option.none
  | x :: rest => if x = c then Option.some rest else Option.none

/-- Gregorian leap-year rule, as the datetime module applies it. -/
def isLeap (y : Nat) : Bool :=
  y % 4 == 0 && (y % 100 != 0 || y % 400 == 0)

/-- Days in a month of the proleptic Gregorian calendar. -/
def daysInMonth (y m : Nat) : Nat :=
  if m = 2 then (if isLeap y then 29 else 28)
  else if m = 4 ∨ m = 6 ∨ m = 9 ∨ m = 11 then 30
  else 31

/-- The maximal run of leading digits and the remainder. -/
def takeDigits : List Char → List Char × List Char
  | [] => ([], [])
  | c :: rest =>
    if c.isDigit then
      let r := takeDigits rest
      (c :: r.1, r.2)
    else ([], c :: rest)

/-- Value of a digit run. -/
def digitsToNat (l : List Char) : Nat :=
  l.foldl (fun acc c => acc * 10 + (c.toNat - 48)) 0

/-- datetime.fromisoformat, modelled for the extended ISO forms the bot
meets: a calendar date, optionally followed by a T or space separator, a
HH:MM time with optional seconds and a one-to-six digit fraction, and an
optional +HH:MM or -HH:MM offset; fields are range-checked as CPython
checks them.  Strings outside this subset fail to parse, which the
caller turns into the ValueError fallback. -/
def fromisoformat (l : List Char) : Option PyDateTime := do
  let (y, r1) ← parse4 l
  let r2 ← expectChar '-' r1
  let (mo, r3) ← parse2 r2
  let r4 ← expectChar '-' r3
  let (d, r5) ← parse2 r4
  if !(1 ≤ y && y ≤ 9999 && 1 ≤ mo && mo ≤ 12 && 1 ≤ d
      && d ≤ daysInMonth y mo) then
    Option.none
  else
    match r5 with
    | [] => Option.some ⟨y, mo, d, 0, 0, 0, 0, Option.none⟩
    | sep :: r6 =>
      if !(sep = 'T' ∨ sep = ' ') then Option.none
      else do
        let (h, r7) ← parse2 r6
        let r8 ← expectChar ':' r7
        let (mi, r9) ← parse2 r8
        let smr ←
          (match r9 with
           | ':' :: r => do
             let (s, ra) ← parse2 r
             (match ra with
              | '.' :: rb =>
                let td := takeDigits rb
                if td.1.length = 0 || td.1.length > 6 then Option.none
                else Option.some (s,
                  digitsToNat td.1 * 10 ^ (6 - td.1.length), td.2)
              | _ => Option.some (s, 0, ra))
           | _ => Option.some (0, 0, r9))
        let s := smr.1
        let micro := smr.2.1
        let r10 := smr.2.2
        if !(h ≤ 23 && mi ≤ 59 && s ≤ 59) then Option.none
        else
          match r10 with
          | [] => Option.some ⟨y, mo, d, h, mi, s, micro, Option.none⟩
          | sign :: r11 =>
            if !(sign = '+' ∨ sign = '-') then Option.none
            else do
              let (oh, r12) ← parse2 r11
              let r13 ← expectChar ':' r12
              let (om, r14) ← parse2 r13
              if !(r14 = [] && om ≤ 59) then Option.none
              else
                let off : Int := ((oh * 60 + om : Nat) : Int)
                Option.some ⟨y, mo, d, h, mi, s, micro,
                  Option.some (if sign = '+' then off else -off)⟩

/-- Days since 1970-01-01 of a proleptic Gregorian date (the classic
civil-from-days algorithm; Int division in Lean rounds toward negative
infinity for the positive divisors used, which is what the algorithm
needs). -/
def daysFromCivil (y m d : Nat) : Int :=
  let y2 : Int := if m ≤ 2 then (y : Int) - 1 else (y : Int)
  let era : Int := y2 / 400
  let yoe : Int := y2 - era * 400
  let mp : Int := ((m : Int) + 9) % 12
  let doy : Int := (153 * mp + 2) / 5 + (d : Int) - 1
  let doe : Int := yoe * 365 + yoe / 4 - yoe / 100 + doy
  era * 146097 + doe - 719468

/-- Proleptic Gregorian date of a day count since 1970-01-01 (inverse of
daysFromCivil). -/
def civilFromDays (z0 : Int) : Int × Nat × Nat :=
  let z := z0 + 719468
  let era : Int := z / 146097
  let doe : Int := z - era * 146097
  let yoe : Int := (doe - doe / 1460 + doe / 36524 - doe / 146096) / 365
  let y : Int := yoe + era * 400
  let doy : Int := doe - (365 * yoe + yoe / 4 - yoe / 100)
  let mp : Int := (5 * doy + 2) / 153
  let d : Int := doy - (153 * mp + 2) / 5 + 1
  let m : Int := if mp < 10 then mp + 3 else mp - 9
  ((if m ≤ 2 then y + 1 else y), m.toNat, d.toNat)

/-- The wall-clock fields that the display format prints. -/
structure WallClock where
  year : Int
  month : Nat
  day : Nat
  hour : Nat
  minute : Nat
deriving DecidableEq, Repr

/-- datetime.astimezone to a fixed-offset zone: a naive value is
interpreted in the system zone (sysOffsetMin), an aware value under its
own offset; the instant is converted to the target offset and split back
into civil fields. -/
def astimezone (dt : PyDateTime) (targetOffsetMin sysOffsetMin : Int) :
    WallClock :=
  let o := dt.offsetMinutes.getD sysOffsetMin
  let e : Int := daysFromCivil dt.year dt.month dt.day * 86400
    + dt.hour * 3600 + dt.minute * 60 + dt.second - o * 60
  let wall := e + targetOffsetMin * 60
  let days := wall / 86400
  let sod := (wall % 86400).toNat
  let c := civilFromDays days
  ⟨c.1, c.2.1, c.2.2, sod / 3600, sod % 3600 / 60⟩

/-- Two-digit zero padding of strftime. -/
def pad2 (n : Nat) : List Char :=
  (if n < 10 then ['0'] else []) ++ (toString n).data

/-- Year formatting of strftime %Y (zero-padded to four digits as
CPython prints it). -/
def pad4 (n : Int) : List Char :=
  let s := (toString n).data
  if 0 ≤ n && s.length < 4 then
    List.replicate (4 - s.length) '0' ++ s
  else s

/-- The strftime format string of convert_utc_to_local, day.month.year
hour:minute and the zone abbreviation in parentheses. -/
def strftime_display (w : WallClock) (zoneAb : List Char) : List Char :=
  pad2 w.day ++ ['.'] ++ pad2 w.month ++ ['.'] ++ pad4 w.year ++ [' ']
    ++ pad2 w.hour ++ [':'] ++ pad2 w.minute ++ [' ', '(']
    ++ zoneAb ++ [')']

/-- The IANA zones the deployment uses, with UTC offset in minutes and
strftime %Z abbreviation; both are DST-free at the modelled instants
(Moscow has had a fixed offset since 2014).  Well-formed names outside
the table raise ZoneInfoNotFoundError, which convert_utc_to_local
catches; malformed names are rejected earlier with ValueError (see
zoneKeyMalformed). -/
def zoneTable : String → Option (Int × List Char)
  | "UTC" => Option.some (0, ['U', 'T', 'C'])
  | "Europe/Moscow" => Option.some (180, ['M', 'S', 'K'])
  | _ => Option.none

/-- The ValueError fallback string of convert_utc_to_local: T and Z are
replaced and an error note is appended (the note text itself is
interpreter-supplied prose and abbreviated here). -/
def fallback_error_string (l : List Char) : List Char :=
  (l.flatMap fun c =>
    if c = 'T' then [' ']
    else if c = 'Z' then [' ', 'U', 'T', 'C']
    else [c]) ++ (" (error)".data)

/-- convert_utc_to_local from src/bot/utils.py (lines 35-67): empty
input yields "Unknown time", an empty zone name falls back to UTC, a
parse failure yields the ValueError fallback string, a malformed zone
name raises ValueError from ZoneInfo inside the same try and therefore
also yields the ValueError fallback string, a well-formed unknown zone
raises the caught ZoneInfoNotFoundError and retries the conversion with
UTC, and otherwise the parsed instant is rendered in the requested zone
with the strftime display format. -/
def convert_utc_to_local (utc_time_str timezone_str : String)
    (sysOffsetMin : Int) : String :=
  if utc_time_str = "" then "Unknown time"
  else
    let tzName := if timezone_str = "" then "UTC" else timezone_str
    match _normalize_time_string utc_time_str.data with
    | Except.error _ => ⟨fallback_error_string utc_time_str.data⟩
    | Except.ok norm =>
      match fromisoformat norm with
      | Option.none => ⟨fallback_error_string utc_time_str.data⟩
      | Option.some dt =>
        if zoneKeyMalformed tzName then
          ⟨fallback_error_string utc_time_str.data⟩
        else
        match zoneTable tzName with
        | Option.some z =>
          ⟨strftime_display (astimezone dt z.1 sysOffsetMin) z.2⟩
        | Option.none =>
          match _normalize_time_string utc_time_str.data with
          | Except.error _ => ⟨fallback_error_string utc_time_str.data⟩
          | Except.ok norm2 =>
            match fromisoformat norm2 with
            | Option.none => ⟨fallback_error_string utc_time_str.data⟩
            | Option.some dt2 =>
              ⟨strftime_display (astimezone dt2 0 sysOffsetMin)
                ['U', 'T', 'C']⟩

theorem Dict.get_set_same (d : Dict) (k : String) (v : Val) :
    (Dict.set d k v).get k = v := by
  induction d with
  | nil => simp [Dict.set, Dict.get]
  | cons kv rest ih =>
    obtain ⟨k1, w⟩ := kv
    by_cases h : k1 = k
    · simp [Dict.set, Dict.get, h]
    · simp [Dict.set, Dict.get, h, ih]

theorem Dict.get_set_ne (d : Dict) (k k2 : String) (v : Val)
    (h : k ≠ k2) : (Dict.set d k v).get k2 = d.get k2 := by
  induction d with
  | nil => simp [Dict.set, Dict.get, h]
  | cons kv rest ih =>
    obtain ⟨k1, w⟩ := kv
    by_cases h1 : k1 = k
    · subst h1
      simp [Dict.set, Dict.get, h]
    · by_cases h2 : k1 = k2
      · simp [Dict.set, Dict.get, h1, h2, Ne.symm h]
      · simp [Dict.set, Dict.get, h1, h2, ih]

theorem Dict.hasKey_eraseKey (d : Dict) (key : String) :
    (d.eraseKey key).hasKey key = false := by
  induction d with
  | nil => simp [Dict.eraseKey, Dict.hasKey]
  | cons kv rest ih =>
    obtain ⟨k1, w⟩ := kv
    by_cases h : k1 = key
    · simp [Dict.eraseKey, h, ih]
    · simp [Dict.eraseKey, Dict.hasKey, h, ih]

theorem flag_update_setting_write (cfg : Dict) (key value now : String) :
    flagMatchesConj (ConfigManager.update_setting_write cfg key value
      now).1 := by
  simp [ConfigManager.update_setting_write, ConfigManager.save_config,
    flagMatchesConj, Dict.get_set_same, Dict.get_set_ne]

/-- Claim C7, amended: an invalid timezone name never changes the
stored configuration and never writes to disk; when the name is a
well-formed key outside the zone database, ZoneInfo raises
ZoneInfoNotFoundError, update_setting catches it and returns silently;
but when the name is malformed (empty, absolute, a doubled or trailing
slash, or dot segments), ZoneInfo raises ValueError, which
update_setting does not catch, so that exception propagates to the
caller. -/
theorem update_setting_invalid_timezone (tzdb : List String)
    (cfg : Dict) (value now : String) :
    (zoneKeyMalformed value = false → value ∉ tzdb →
      ConfigManager.update_setting tzdb cfg "timezone" value now
        = Except.ok (cfg, Option.none))
    ∧ (zoneKeyMalformed value = true →
      ConfigManager.update_setting tzdb cfg "timezone" value now
        = Except.error ()) := by
  constructor
  · intro hm hv
    simp [ConfigManager.update_setting, zoneinfo_ctor, hm, hv]
  · intro hm
    simp [ConfigManager.update_setting, zoneinfo_ctor, hm]

/-- Witness for C7 at concrete names: the well-formed unknown zone
"Invalid/TZ" is swallowed as a no-op, the malformed "Europe//Moscow"
escapes as an exception. -/
theorem update_setting_invalid_timezone_witness :
    (zoneKeyMalformed "Invalid/TZ" = false
      ∧ "Invalid/TZ" ∉ ["UTC", "Europe/Moscow"]
      ∧ ConfigManager.update_setting ["UTC", "Europe/Moscow"]
          ConfigManager.get_default_config "timezone" "Invalid/TZ" "t1"
          = Except.ok (ConfigManager.get_default_config, Option.none))
    ∧ (zoneKeyMalformed "Europe//Moscow" = true
      ∧ ConfigManager.update_setting ["UTC", "Europe/Moscow"]
          ConfigManager.get_default_config "timezone" "Europe//Moscow"
          "t1" = Except.error ()) :=
  ⟨⟨by decide, by decide,
    (update_setting_invalid_timezone ["UTC", "Europe/Moscow"]
      ConfigManager.get_default_config "Invalid/TZ" "t1").1
      (by decide) (by decide)⟩,
   ⟨by decide,
    (update_setting_invalid_timezone ["UTC", "Europe/Moscow"]
      ConfigManager.get_default_config "Europe//Moscow" "t1").2
      (by decide)⟩⟩

/-- Counterexample for C7 as stated: on the invalid timezone name
"Europe//Moscow" (not an IANA zone; its doubled slash makes ZoneInfo
raise ValueError, which update_setting does not catch), the call itself
raises: an exception does propagate to the caller. -/
theorem update_setting_timezone_value_error :
    ConfigManager.update_setting ["UTC", "Europe/Moscow"]
        ConfigManager.get_default_config "timezone" "Europe//Moscow" "t1"
      = Except.error ()
    ∧ "Europe//Moscow" ∉ ["UTC", "Europe/Moscow"] :=
  ⟨rfl, by decide⟩

/-- Claim C5: every mutation of the credential configuration leaves the
configured flag equal to the conjunction of (login non-empty, campus id
non-empty, recipient id non-empty): update_setting recomputes it on every
write (for any key, including the password, which is excluded from the
conjunction), and reset_settings preserves the invariant (it hard-codes
False, which coincides with the conjunction because it also clears the
login and campus fields). -/
theorem configured_flag_is_conjunction (tzdb : List String) (cfg : Dict)
    (key value chat_id now : String) :
    (∀ cfg2 saved,
      ConfigManager.update_setting tzdb cfg key value now
          = Except.ok (cfg2, Option.some saved) →
      flagMatchesConj cfg2)
    ∧ (flagMatchesConj cfg →
      flagMatchesConj (reset_settings cfg chat_id now).1) := by
  constructor
  · intro cfg2 saved h
    by_cases hk : key = "timezone"
    · subst hk
      cases hz : zoneinfo_ctor tzdb value with
      | valueError => simp [ConfigManager.update_setting, hz] at h
      | notFound => simp [ConfigManager.update_setting, hz] at h
      | ok =>
        simp [ConfigManager.update_setting, hz] at h
        rw [← h.1]
        exact flag_update_setting_write cfg "timezone" value now
    · simp [ConfigManager.update_setting, hk] at h
      rw [← h.1]
      exact flag_update_setting_write cfg key value now
  · intro hflag
    by_cases hauth : Val.str chat_id = cfg.get "admin_chat_id"
    · simp [reset_settings, ConfigManager.save_config, hauth,
        flagMatchesConj, Dict.set, Dict.get, Val.truthy]
    · simpa [reset_settings, hauth] using hflag

/-- Witness for C5 at concrete inputs: an update of the login on the
default configuration, and a reset issued by the stored admin chat. -/
theorem configured_flag_is_conjunction_witness :
    flagMatchesConj
      [("platform_login", Val.str "user"), ("school_id", Val.str ""),
       ("campus_name", Val.str ""), ("admin_chat_id", Val.str ""),
       ("is_configured", Val.bool false), ("last_update", Val.str "t1"),
       ("timezone", Val.str "UTC+3")]
    ∧ (flagMatchesConj (Dict.set ConfigManager.get_default_config
          "admin_chat_id" (Val.str "42"))
      ∧ flagMatchesConj (reset_settings
          (Dict.set ConfigManager.get_default_config "admin_chat_id"
            (Val.str "42")) "42" "t2").1) :=
  ⟨(configured_flag_is_conjunction ["UTC"]
      ConfigManager.get_default_config "platform_login" "user" "42" "t1").1
      [("platform_login", Val.str "user"), ("school_id", Val.str ""),
       ("campus_name", Val.str ""), ("admin_chat_id", Val.str ""),
       ("is_configured", Val.bool false), ("last_update", Val.str "t1"),
       ("timezone", Val.str "UTC+3")]
      [("platform_login", Val.str "user"), ("school_id", Val.str ""),
       ("campus_name", Val.str ""), ("admin_chat_id", Val.str ""),
       ("is_configured", Val.bool false), ("last_update", Val.str "t1"),
       ("timezone", Val.str "UTC+3")]
      rfl,
   ⟨by decide,
    (configured_flag_is_conjunction ["UTC"]
      (Dict.set ConfigManager.get_default_config "admin_chat_id"
        (Val.str "42")) "platform_login" "user" "42" "t2").2 (by decide)⟩⟩

/-- Claim C3, amended: in the modular ConfigManager
(src/bot/config_manager.py) the persisted configuration representation
never contains the platform password, both for a direct save_config and
for the save performed by update_setting; the legacy monolith
(src/21_notifier_bot.py) however pickles the whole configuration,
password included, so the claim does not hold of every save operation in
the repository. -/
theorem modular_save_excludes_password (cfg : Dict) (now : String) :
    ((ConfigManager.save_config cfg now).2).hasKey "platform_password"
        = false
    ∧ (∀ tzdb key value cfg2 saved,
      ConfigManager.update_setting tzdb cfg key value now
          = Except.ok (cfg2, Option.some saved) →
      saved.hasKey "platform_password" = false) := by
  constructor
  · exact Dict.hasKey_eraseKey _ _
  · intro tzdb key value cfg2 saved h
    by_cases hk : key = "timezone"
    · subst hk
      cases hz : zoneinfo_ctor tzdb value with
      | valueError => simp [ConfigManager.update_setting, hz] at h
      | notFound => simp [ConfigManager.update_setting, hz] at h
      | ok =>
        simp [ConfigManager.update_setting, hz,
          ConfigManager.update_setting_write,
          ConfigManager.save_config] at h
        rw [← h.2]
        exact Dict.hasKey_eraseKey _ _
    · simp [ConfigManager.update_setting, hk,
        ConfigManager.update_setting_write,
        ConfigManager.save_config] at h
      rw [← h.2]
      exact Dict.hasKey_eraseKey _ _

/-- Witness for C3 at a concrete configuration that carries the runtime
password field: the representation written by update_setting omits it. -/
theorem modular_save_excludes_password_witness :
    (ConfigManager.update_setting ["UTC"]
        (Dict.set ConfigManager.get_default_config "platform_password"
          (Val.str "hunter2")) "platform_login" "user" "t1"
      = Except.ok
        ([("platform_login", Val.str "user"), ("school_id", Val.str ""),
          ("campus_name", Val.str ""), ("admin_chat_id", Val.str ""),
          ("is_configured", Val.bool false),
          ("last_update", Val.str "t1"), ("timezone", Val.str "UTC+3"),
          ("platform_password", Val.str "hunter2")],
         Option.some
          [("platform_login", Val.str "user"), ("school_id", Val.str ""),
           ("campus_name", Val.str ""), ("admin_chat_id", Val.str ""),
           ("is_configured", Val.bool false),
           ("last_update", Val.str "t1"),
           ("timezone", Val.str "UTC+3")]))
    ∧ Dict.hasKey
        [("platform_login", Val.str "user"), ("school_id", Val.str ""),
         ("campus_name", Val.str ""), ("admin_chat_id", Val.str ""),
         ("is_configured", Val.bool false),
         ("last_update", Val.str "t1"), ("timezone", Val.str "UTC+3")]
        "platform_password" = false :=
  ⟨rfl,
   (modular_save_excludes_password
      (Dict.set ConfigManager.get_default_config "platform_password"
        (Val.str "hunter2")) "t1").2 ["UTC"] "platform_login" "user"
      [("platform_login", Val.str "user"), ("school_id", Val.str ""),
       ("campus_name", Val.str ""), ("admin_chat_id", Val.str ""),
       ("is_configured", Val.bool false),
       ("last_update", Val.str "t1"), ("timezone", Val.str "UTC+3"),
       ("platform_password", Val.str "hunter2")]
      [("platform_login", Val.str "user"), ("school_id", Val.str ""),
       ("campus_name", Val.str ""), ("admin_chat_id", Val.str ""),
       ("is_configured", Val.bool false),
       ("last_update", Val.str "t1"), ("timezone", Val.str "UTC+3")]
      rfl⟩

/-- Counterexample for C3 as stated: the monolith save operation
(src/21_notifier_bot.py, ConfigManager.save_config) persists the whole
configuration dictionary, so after the operator sets a password the
persisted representation contains it. -/
theorem monolith_save_persists_password :
    ((Monolith.update_setting Monolith.get_default_config
        "platform_password" "s3cret" "t0").2).get "platform_password"
        = Val.str "s3cret"
    ∧ ((Monolith.update_setting Monolith.get_default_config
        "platform_password" "s3cret" "t0").2).hasKey "platform_password"
        = true := by
  decide

/-- Claim C1: with no baseline yet (empty seen set, the state at process
start) a non-empty fetched list is adopted as the baseline and nothing is
reported; with a baseline, exactly the fetched notifications whose id was
not in the previous seen set are returned, in fetch order, and the seen
set is replaced by the ids of the fetched list unconditionally, even when
no new item was found. -/
theorem delta_tracking (current : List Notif) (seen : Finset String)
    (hne : current ≠ []) :
    (seen = ∅ →
      get_new_notifications (Option.some current) seen
        = ([], notifIds current))
    ∧ (seen ≠ ∅ →
      get_new_notifications (Option.some current) seen
        = (current.filter (fun n => n.id ∉ seen), notifIds current)) := by
  constructor
  · intro h0
    simp [get_new_notifications, hne, h0]
  · intro h0
    have hfil : current.filter (fun n => n.id ∈ notifIds current \ seen)
        = current.filter (fun n => n.id ∉ seen) := by
      apply List.filter_congr
      intro n hn
      have hmem : n.id ∈ notifIds current := by
        simp only [notifIds, List.mem_toFinset]
        exact List.mem_map_of_mem Notif.id hn
      simp [Finset.mem_sdiff, hmem]
    simp only [get_new_notifications, hne, if_false, h0, if_neg hne,
      if_neg h0]
    rw [hfil]

/-- Witness for C1, realising the example of the spec: baseline adoption
on [A,B,C], then [A,B,C,D] reports exactly D, and [A,C,D] after baseline
set-of A B C reports nothing while rebasing the seen set. -/
theorem delta_tracking_witness :
    get_new_notifications (Option.some
        [⟨"A", "tA", "mA", "g"⟩, ⟨"B", "tB", "mB", "g"⟩,
         ⟨"C", "tC", "mC", "g"⟩]) ∅
      = ([], {"A", "B", "C"})
    ∧ get_new_notifications (Option.some
        [⟨"A", "tA", "mA", "g"⟩, ⟨"B", "tB", "mB", "g"⟩,
         ⟨"C", "tC", "mC", "g"⟩, ⟨"D", "tD", "mD", "g"⟩])
        {"A", "B", "C"}
      = ([⟨"D", "tD", "mD", "g"⟩], {"A", "B", "C", "D"})
    ∧ get_new_notifications (Option.some
        [⟨"A", "tA", "mA", "g"⟩, ⟨"C", "tC", "mC", "g"⟩,
         ⟨"D", "tD", "mD", "g"⟩])
        {"A", "B", "C"}
      = ([⟨"D", "tD", "mD", "g"⟩], {"A", "C", "D"}) :=
  ⟨((delta_tracking
      [⟨"A", "tA", "mA", "g"⟩, ⟨"B", "tB", "mB", "g"⟩,
       ⟨"C", "tC", "mC", "g"⟩] ∅ (by decide)).1 rfl).trans (by decide),
   ((delta_tracking
      [⟨"A", "tA", "mA", "g"⟩, ⟨"B", "tB", "mB", "g"⟩,
       ⟨"C", "tC", "mC", "g"⟩, ⟨"D", "tD", "mD", "g"⟩]
      {"A", "B", "C"} (by decide)).2 (by decide)).trans (by decide),
   ((delta_tracking
      [⟨"A", "tA", "mA", "g"⟩, ⟨"C", "tC", "mC", "g"⟩,
       ⟨"D", "tD", "mD", "g"⟩]
      {"A", "B", "C"} (by decide)).2 (by decide)).trans (by decide)⟩

/-- Claim C10: a failed fetch (None) or an empty fetched list makes
get_new_notifications return the empty list and leave the seen set
untouched; hence an initial empty fetch establishes no baseline, and the
next non-empty fetch is again treated as cold start, reporting nothing
and only then adopting the baseline. -/
theorem fetch_failure_preserves_seen (fetched : Option (List Notif))
    (seen : Finset String) (current : List Notif)
    (h : fetched = Option.none ∨ fetched = Option.some [])
    (hcur : current ≠ []) :
    get_new_notifications fetched seen = ([], seen)
    ∧ get_new_notifications (Option.some current)
        (get_new_notifications fetched ∅).2 = ([], notifIds current) := by
  have h1 : ∀ s, get_new_notifications fetched s = ([], s) := by
    intro s
    rcases h with h | h <;> subst h <;> simp [get_new_notifications]
  refine ⟨h1 seen, ?_⟩
  rw [h1 ∅]
  simp [get_new_notifications, hcur]

/-- Claim C4: login_and_get_token mutates the session token and expiry
only on success.  With non-empty credentials: an API-tier token t sets
the state to t with expiry now plus 10 hours (36000 seconds); when the
API tier fails and the browser tier yields t, the state becomes t with
expiry now plus 23 hours (82800 seconds); when both tiers fail the call
returns None and the previous state, stale token and expiry included, is
left exactly as it was. -/
theorem login_mutates_only_on_success (st : SessionState)
    (login password t : String) (api sel : Option String) (now : Nat)
    (hl : login ≠ "") (hp : password ≠ "") :
    (api = Option.some t → t ≠ "" →
      login_and_get_token st login password api sel now
        = (Option.some t, ⟨Option.some t, Option.some (now + 36000)⟩))
    ∧ (api = Option.none → sel = Option.some t → t ≠ "" →
      login_and_get_token st login password api sel now
        = (Option.some t, ⟨Option.some t, Option.some (now + 82800)⟩))
    ∧ (api = Option.none → sel = Option.none →
      login_and_get_token st login password api sel now
        = (Option.none, st)) := by
  refine ⟨?_, ?_, ?_⟩
  · intro ha ht
    subst ha
    simp [login_and_get_token, hl, hp, truthyOptStr, ht]
  · intro ha hs ht
    subst ha
    subst hs
    simp [login_and_get_token, hl, hp, truthyOptStr, ht]
  · intro ha hs
    subst ha
    subst hs
    simp [login_and_get_token, hl, hp, truthyOptStr]

/-- Witness for C4 at concrete inputs, exercising the API-success, the
browser-fallback and the total-failure branch from a stale state. -/
theorem login_mutates_only_on_success_witness :
    login_and_get_token ⟨Option.some "old", Option.some 5⟩ "user" "pw"
        (Option.some "tA") Option.none 100
      = (Option.some "tA", ⟨Option.some "tA", Option.some 36100⟩)
    ∧ login_and_get_token ⟨Option.some "old", Option.some 5⟩ "user" "pw"
        Option.none (Option.some "tB") 100
      = (Option.some "tB", ⟨Option.some "tB", Option.some 82900⟩)
    ∧ login_and_get_token ⟨Option.some "old", Option.some 5⟩ "user" "pw"
        Option.none Option.none 100
      = (Option.none, ⟨Option.some "old", Option.some 5⟩) :=
  ⟨((login_mutates_only_on_success ⟨Option.some "old", Option.some 5⟩
      "user" "pw" "tA" (Option.some "tA") Option.none 100 (by decide)
      (by decide)).1 rfl (by decide)).trans (by decide),
   ((login_mutates_only_on_success ⟨Option.some "old", Option.some 5⟩
      "user" "pw" "tB" Option.none (Option.some "tB") 100 (by decide)
      (by decide)).2.1 rfl rfl (by decide)).trans (by decide),
   (login_mutates_only_on_success ⟨Option.some "old", Option.some 5⟩
      "user" "pw" "x" Option.none Option.none 100 (by decide)
      (by decide)).2.2 rfl rfl⟩

/-- Witness for C10 with a failed fetch, a non-trivial seen set, and a
follow-up non-empty fetch. -/
theorem fetch_failure_preserves_seen_witness :
    get_new_notifications (Option.none) {"A"} = ([], {"A"})
    ∧ get_new_notifications (Option.some [⟨"B", "tB", "mB", "g"⟩])
        (get_new_notifications (Option.none) ∅).2
      = ([], notifIds [⟨"B", "tB", "mB", "g"⟩]) :=
  fetch_failure_preserves_seen Option.none {"A"}
    [⟨"B", "tB", "mB", "g"⟩] (Or.inl rfl) (by decide)

/-- Claim C2, amended: get_last_notification (and get_campuses) follow
the probe-then-single-reauth discipline: with a cached non-empty token
whose validation probe fails, exactly one re-authentication attempt is
made; if it yields no token the whole fetch fails with no GraphQL
request issued, and if it yields a token the single GraphQL request
carries the refreshed token.  get_notifications does not follow the
discipline (see the counterexample): it issues the fetch with the cached
token and never probes or re-authenticates. -/
theorem last_fetch_reauth_discipline (st : SessionState) (env : FetchEnv)
    (tok : String) (htok : st.token = Option.some tok) (hne : tok ≠ "")
    (hprobe : (env.probe_status == 200) = false) :
    ((login_and_get_token st env.login env.password env.api_result
        env.selenium_result env.now).1 = Option.none →
      (get_last_notification st env).1 = .ok Option.none
      ∧ (get_last_notification st env).2.2
          = [NetEvent.probe tok, NetEvent.reauth])
    ∧ (∀ nt, (login_and_get_token st env.login env.password env.api_result
        env.selenium_result env.now).1 = Option.some nt → nt ≠ "" →
      env.school_id ≠ "" →
      (get_last_notification st env).2.2
        = [NetEvent.probe tok, NetEvent.reauth, NetEvent.fetchPost nt]) := by
  have hval : validate_token (Option.some tok) env.probe_status
      = (false, [NetEvent.probe tok]) := by
    simp [validate_token, hne, hprobe]
  constructor
  · intro hre
    constructor <;> simp [get_last_notification, htok, hne, hval, hre]
  · intro nt hre hnt hschool
    simp [get_last_notification, htok, hne, hval, hre, hnt, hschool]

/-- Witness for C2 with a failing probe: one environment where the
re-authentication fails (both tiers down) and one where the API tier
yields a fresh token that the single fetch then carries. -/
theorem last_fetch_reauth_discipline_witness :
    ((get_last_notification ⟨Option.some "stale", Option.some 7⟩
        ⟨500, "user", "pw", Option.none, Option.none, 100, "sch",
         200, true, Json.obj []⟩).1 = .ok Option.none
      ∧ (get_last_notification ⟨Option.some "stale", Option.some 7⟩
        ⟨500, "user", "pw", Option.none, Option.none, 100, "sch",
         200, true, Json.obj []⟩).2.2
          = [NetEvent.probe "stale", NetEvent.reauth])
    ∧ (get_last_notification ⟨Option.some "stale", Option.some 7⟩
        ⟨500, "user", "pw", Option.some "fresh", Option.none, 100, "sch",
         200, true, Json.obj []⟩).2.2
        = [NetEvent.probe "stale", NetEvent.reauth,
           NetEvent.fetchPost "fresh"] :=
  ⟨(last_fetch_reauth_discipline ⟨Option.some "stale", Option.some 7⟩
      ⟨500, "user", "pw", Option.none, Option.none, 100, "sch",
       200, true, Json.obj []⟩ "stale" rfl (by decide) (by decide)).1 rfl,
   (last_fetch_reauth_discipline ⟨Option.some "stale", Option.some 7⟩
      ⟨500, "user", "pw", Option.some "fresh", Option.none, 100, "sch",
       200, true, Json.obj []⟩ "stale" rfl (by decide) (by decide)).2
      "fresh" rfl (by decide) (by decide)⟩

/-- Counterexample for C2 as stated: with a cached token whose probe
would fail (probe status 500), get_notifications issues the GraphQL
fetch anyway — the request trace is exactly one POST bearing the stale
cached token, with no probe and no re-authentication attempt, and the
fetch succeeds against the network rather than failing. -/
theorem get_notifications_fetches_with_invalid_token :
    get_notifications ⟨Option.some "stale", Option.some 7⟩
        ⟨500, "user", "pw", Option.some "fresh", Option.none, 100, "sch",
         200, true, Json.obj []⟩
      = (.ok (Option.some (Json.arr [])), [NetEvent.fetchPost "stale"])
    ∧ (500 : Nat) ≠ 200 :=
  ⟨rfl, by decide⟩

/-- Claim C6, amended: with HTTP status 200 and a decodable dict body,
a body carrying an errors entry is treated as a failure (None), and
otherwise the notifications array is extracted with every lookup along
data / s21Notification / getS21Notifications / notifications defaulting
to an empty dict (finally an empty list) when the key is missing —
provided each present intermediate value is itself a dict.  A present
non-dict value (for example null) makes the lookup raise AttributeError,
which no handler catches (see the counterexample), so the claim's
never-raises clause fails as stated. -/
theorem notifications_parse_spec (env : FetchEnv)
    (fs fs1 fs2 fs3 : List (String × Json))
    (hst : env.status = 200) (hdec : env.decode_ok = true)
    (hdata : env.data = Json.obj fs) :
    (jsonHasKey fs "errors" = true →
      http_fetch_body env = .ok Option.none)
    ∧ (jsonHasKey fs "errors" = false →
      jsonGetD fs "data" (Json.obj []) = Json.obj fs1 →
      jsonGetD fs1 "s21Notification" (Json.obj []) = Json.obj fs2 →
      jsonGetD fs2 "getS21Notifications" (Json.obj []) = Json.obj fs3 →
      http_fetch_body env
        = .ok (Option.some (jsonGetD fs3 "notifications" (Json.arr [])))) := by
  constructor
  · intro herr
    simp [http_fetch_body, hst, hdec, hdata, parse_notifications, pyIn,
      herr, Bind.bind, Except.bind, pure, Except.pure]
  · intro herr h1 h2 h3
    simp [http_fetch_body, hst, hdec, hdata, parse_notifications, pyIn,
      herr, pyGetD, h1, h2, h3, Bind.bind, Except.bind, pure,
      Except.pure, Functor.map, Except.map]

/-- Witness for C6: a 200 body with an errors entry fails, and a 200
body whose nesting stops early yields the empty default list. -/
theorem notifications_parse_spec_witness :
    http_fetch_body ⟨0, "", "", Option.none, Option.none, 0, "",
        200, true, Json.obj [("errors", Json.arr [])]⟩
      = .ok Option.none
    ∧ http_fetch_body ⟨0, "", "", Option.none, Option.none, 0, "",
        200, true,
        Json.obj [("data", Json.obj [("s21Notification", Json.obj [])])]⟩
      = .ok (Option.some (Json.arr [])) :=
  ⟨(notifications_parse_spec ⟨0, "", "", Option.none, Option.none, 0, "",
      200, true, Json.obj [("errors", Json.arr [])]⟩
      [("errors", Json.arr [])] [] [] [] rfl rfl rfl).1 (by decide),
   (notifications_parse_spec ⟨0, "", "", Option.none, Option.none, 0, "",
      200, true,
      Json.obj [("data", Json.obj [("s21Notification", Json.obj [])])]⟩
      [("data", Json.obj [("s21Notification", Json.obj [])])]
      [("s21Notification", Json.obj [])] [] [] rfl rfl rfl).2
      (by decide) rfl rfl rfl⟩

/-- Counterexample for C6 as stated: an HTTP-200 body in which the data
key is present but null makes the extraction raise AttributeError (the
embedded error value), instead of returning the empty default — the
response shape is unexpected yet not covered by the defaulting. -/
theorem notifications_parse_raises_on_null :
    http_fetch_body ⟨0, "", "", Option.none, Option.none, 0, "",
        200, true, Json.obj [("data", Json.null)]⟩
      = .error "AttributeError"
    ∧ jsonHasKey [("data", Json.null)] "errors" = false :=
  ⟨rfl, by decide⟩

theorem onceAux_escapeList (l : List Char) : ∀ (p2 p1 : Option Char),
    (∀ c ∈ l, c ≠ '\\') → p1 ≠ Option.some '\\' →
    onceAux p2 p1 (escapeList l) = true := by
  induction l with
  | nil =>
    intro p2 p1 _ _
    rfl
  | cons c l ih =>
    intro p2 p1 hno hp1
    have hc : c ≠ '\\' := hno c (List.mem_cons_self c l)
    have hno2 : ∀ x ∈ l, x ≠ '\\' := fun x hx =>
      hno x (List.mem_cons_of_mem c hx)
    have hcp : Option.some c ≠ Option.some '\\' := by simpa using hc
    by_cases hs : isSpecial c = true
    · have hbs : isSpecial '\\' = false := by decide
      simp [escapeList, onceAux, hs, hbs, hp1, ih _ _ hno2 hcp]
    · simp [escapeList, onceAux, hs, ih _ _ hno2 hcp]

theorem count_escapeList (l : List Char) :
    (escapeList l).count '\\' = l.count '\\' + l.countP isSpecial := by
  induction l with
  | nil => rfl
  | cons c l ih =>
    by_cases hs : isSpecial c = true
    · have hc : c ≠ '\\' := by
        intro e
        subst e
        exact absurd hs (by decide)
      simp [escapeList, hs, List.count_cons, List.countP_cons, ih, hc,
        beq_iff_eq]
      omega
    · simp [escapeList, hs, List.count_cons, List.countP_cons, ih,
        beq_iff_eq]
      omega

/-- Claim C9, amended: escaping the empty string yields the empty
string; on every input that contains no literal backslash, each special
character of the output is preceded by exactly one backslash; and on
every input the function inserts exactly one backslash per special
character, so the output backslash count is the input backslash count
plus the number of special characters.  On an input already containing a
backslash right before a special character the positional exactly-once
property fails (see the counterexample). -/
theorem escape_markdown_spec (s t : String) :
    escape_markdown "" = ""
    ∧ ('\\' ∉ s.data →
      allSpecialsEscapedOnce (escape_markdown s).data = true)
    ∧ (escape_markdown t).data.count '\\'
        = t.data.count '\\' + t.data.countP isSpecial := by
  refine ⟨rfl, ?_, ?_⟩
  · intro hbs
    exact onceAux_escapeList s.data Option.none Option.none
      (fun c hc e => hbs (e ▸ hc)) (by simp)
  · exact count_escapeList t.data

/-- Witness for C9 on the empty string, a backslash-free input, and an
input with a literal backslash for the counting clause. -/
theorem escape_markdown_spec_witness :
    escape_markdown "" = ""
    ∧ allSpecialsEscapedOnce (escape_markdown "Hello_World!").data = true
    ∧ (escape_markdown "a\\b.c").data.count '\\'
        = "a\\b.c".data.count '\\' + "a\\b.c".data.countP isSpecial :=
  ⟨(escape_markdown_spec "x" "y").1,
   (escape_markdown_spec "Hello_World!" "y").2.1 (by decide),
   (escape_markdown_spec "x" "a\\b.c").2.2⟩

/-- Counterexample for C9 as stated: on the two-character input
backslash-dot, the output is backslash-backslash-dot, in which the
special character dot is preceded by two backslashes, not exactly one
escape marker. -/
theorem escape_markdown_double_backslash :
    escape_markdown "\\." = "\\\\."
    ∧ isSpecial '.' = true
    ∧ allSpecialsEscapedOnce (escape_markdown "\\.").data = false :=
  ⟨rfl, by decide, by decide⟩

/-- Claim C8, amended: the display formatter preserves the instant under
the configured zone offset and renders it with the zone abbreviation
appended: 2023-10-05T12:00:00Z in Europe/Moscow renders as
"05.10.2023 15:00 (MSK)" (not as the bare "05.10.2023 15:00" of the
claim), an instant late in the UTC day rolls over the civil date, the
normalized +00:00 spelling agrees with the Z spelling, and UTC renders
the wall clock unchanged. -/
theorem convert_display_moscow :
    convert_utc_to_local "2023-10-05T12:00:00Z" "Europe/Moscow" 0
      = "05.10.2023 15:00 (MSK)"
    ∧ convert_utc_to_local "2023-10-05T22:30:00Z" "Europe/Moscow" 0
      = "06.10.2023 01:30 (MSK)"
    ∧ convert_utc_to_local "2023-10-05T12:00:00+00:00" "Europe/Moscow" 0
      = "05.10.2023 15:00 (MSK)"
    ∧ convert_utc_to_local "2023-10-05T12:00:00Z" "UTC" 0
      = "05.10.2023 12:00 (UTC)" :=
  ⟨rfl, rfl, rfl, rfl⟩

/-- Counterexample for C8 as stated: the rendered string is not
"05.10.2023 15:00", because the strftime format of the code appends the
zone abbreviation. -/
theorem convert_display_not_bare :
    convert_utc_to_local "2023-10-05T12:00:00Z" "Europe/Moscow" 0
      ≠ "05.10.2023 15:00" := by
  decide

end NotifierBot
